import Mathlib

set_option maxRecDepth 100000

/-!
Shallow embedding of the asynchronous document-generation workflow of the
solution-handbook repository.

Embedded source files:
* `src/utils/supabase.ts` — Job Store helpers (`createDocumentJob`,
  `getDocumentJob`, `updateDocumentJob`) over the `document_jobs` table whose
  SQL schema (defaults `status = 'pending'`, `created_at = updated_at = now()`,
  all other columns nullable, no update trigger) is documented in the
  repository's Supabase integration guide.
* the API proxy route — `POST` (job submission / status dispatch),
  `processJob`, `checkJobStatus`, `createFallbackHtml`, `createLoadingHtml`,
  `isHtmlContent`.
* `src/app/page.tsx` — the client poll loop `pollJobStatus`.

External effects are made explicit parameters:
* every Supabase call takes a `Bool` flag saying whether the underlying
  query reported an error (the `{ data, error }` pair of supabase-js);
* wall-clock reads (`new Date().toLocaleString()`, `new Date().toISOString()`,
  `Date.now()`) become explicit time arguments;
* the external generation call (`fetch` of the n8n webhook) becomes a
  `FetchResult` argument; `JSON.parse` of the response body is abstracted to
  an optional structured view carrying the fields the code reads
  (`jsonData.html`, `jsonData.projectId`).

JavaScript `a || b` on strings falls through on `undefined`, `null` and the
empty string; this truthiness test is modelled by `jsOrStr` below.
-/

namespace SolutionHandbook

/-- The `status` column of `document_jobs`:
`'pending' | 'processing' | 'completed' | 'failed'`. -/
inductive JobStatus where
  | pending
  | processing
  | completed
  | failed
deriving DecidableEq, Repr

/-- Render a `JobStatus` the way the route serializes it into JSON bodies. -/
def JobStatus.toText : JobStatus → String
  | .pending => "pending"
  | .processing => "processing"
  | .completed => "completed"
  | .failed => "failed"

/-- Observable view of a structured (JSON) payload: the two fields the route
actually reads (`jsonData.html`, `jsonData.projectId`). `none` models a field
that is absent (JavaScript `undefined`), which supabase-js drops from an
update object during serialization. -/
structure JsonPayload where
  html : Option String
  projectId : Option String
deriving DecidableEq, Repr

/-- The `DocumentJob` interface of `src/utils/supabase.ts` / one row of the
`document_jobs` table. Timestamps are abstract instants (`Nat`). -/
structure DocumentJob where
  job_id : String
  status : JobStatus
  prompt : String
  html : Option String
  project_id : Option String
  error : Option String
  result : Option JsonPayload
  created_at : Nat
  updated_at : Nat
deriving DecidableEq, Repr

/-- The `document_jobs` table: a list of rows (`job_id` is the primary key;
uniqueness is a property of reachable stores, not of the representation). -/
abbrev Store := List DocumentJob

/-- JavaScript `x || d` where `x` is a possibly-absent string: falls through
to `d` on `undefined`/`null` (here `none`) and on the empty string. -/
def jsOrStr (x : Option String) (d : String) : String :=
  match x with
  | some s => if s = "" then d else s
  | none => d

/-- JavaScript truthiness of a possibly-absent string. -/
def jsTruthy (x : Option String) : Bool :=
  match x with
  | some s => s ≠ ""
  | none => false

/-- Helper `createDocumentJob(prompt)`: `insert({ prompt }).select().single()`.
Only `prompt` is supplied; every other column takes its schema default:
`job_id` fresh (`uuid_generate_v4()`, here `newId`), `status = 'pending'`,
`created_at = updated_at = now()`, and `html`, `project_id`, `error`,
`result` NULL. On a query error the helper logs and returns `null`. -/
def createDocumentJob (dbErr : Bool) (store : Store) (newId : String)
    (now : Nat) (prompt : String) : Store × Option DocumentJob :=
  if dbErr then (store, none)
  else
    let j : DocumentJob :=
      { job_id := newId, status := .pending, prompt := prompt,
        html := none, project_id := none, error := none, result := none,
        created_at := now, updated_at := now }
    (store ++ [j], some j)

/-- Helper `getDocumentJob(jobId)`: `select('*').eq('job_id', jobId).single()`.
`.single()` reports an error both when no row matches and when the storage
layer fails; in either case the helper logs and returns `null`. -/
def getDocumentJob (dbErr : Bool) (store : Store) (jobId : String) :
    Option DocumentJob :=
  if dbErr then none
  else store.find? (fun j => j.job_id == jobId)

/-- The update payloads `updateDocumentJob` accepts:
`Partial<Omit<DocumentJob, 'job_id' | 'created_at' | 'updated_at'>>`.
A `some` field is present in the partial object; `none` is absent
(`undefined` fields are dropped by serialization, so they never reach the
database). -/
structure JobUpdate where
  status : Option JobStatus := none
  prompt : Option String := none
  html : Option String := none
  project_id : Option String := none
  error : Option String := none
  result : Option JsonPayload := none
deriving DecidableEq, Repr

/-- Column merge: a field present in the partial object overwrites the
column, an absent field leaves it as it was. -/
def setCol {α : Type} (upd old : Option α) : Option α :=
  match upd with
  | some v => some v
  | none => old

/-- SQL `UPDATE` semantics of one row: columns present in the partial object
are overwritten, all other columns keep their value. The documented schema
has no trigger, so `updated_at` (like `job_id` and `created_at`, which the
TypeScript type excludes from the payload) is left untouched. -/
def applyUpdate (j : DocumentJob) (u : JobUpdate) : DocumentJob :=
  { j with
    status := u.status.getD j.status,
    prompt := u.prompt.getD j.prompt,
    html := setCol u.html j.html,
    project_id := setCol u.project_id j.project_id,
    error := setCol u.error j.error,
    result := setCol u.result j.result }

/-- Helper `updateDocumentJob(jobId, updates)`:
`update(updates).eq('job_id', jobId)`. Rewrites every row whose `job_id`
matches (at most one, `job_id` being the primary key); succeeds — returning
`true` — even when no row matches. On a query error the helper logs and
returns `false`, leaving the table unchanged. -/
def updateDocumentJob (dbErr : Bool) (store : Store) (jobId : String)
    (u : JobUpdate) : Store × Bool :=
  if dbErr then (store, false)
  else (store.map (fun j => if j.job_id == jobId then applyUpdate j u else j),
        true)

/-- Template `createFallbackHtml(prompt = "", errorMessage = "")` from the
proxy route. `nowStr` stands for the `new Date().toLocaleString()` read performed
inside the template. -/
def createFallbackHtml (nowStr : String) (prompt : String) (errorMessage : String) : String :=
  "\n    <div>\n      <h1>Sample Document</h1>\n      <p>This is a fallback document generated because we couldn\x27t process your request properly.</p>\n      " ++
  (if errorMessage = "" then "" else "<p><strong>Error:</strong> " ++ errorMessage ++ "</p>") ++
  "\n      <p>Your prompt was: \"" ++ prompt ++
  "\"</p>\n      <hr>\n      <p>Generated at: " ++ nowStr ++ "</p>\n    </div>\n  "

/-- Template `createLoadingHtml(prompt = "")` from the proxy route. `nowStr` stands
for the `new Date().toLocaleString()` read performed inside the template. -/
def createLoadingHtml (nowStr : String) (prompt : String) : String :=
  "\n    <div>\n      <h1>Processing Your Request</h1>\n      <div style=\"margin: 20px 0; padding: 15px; border-left: 4px solid #3498db; background-color: #f8f9fa;\">\n        <p>We\x27re working on generating your document from the prompt:</p>\n        <p><em>\"" ++
  prompt ++
  "\"</em></p>\n      </div>\n      \n      <div style=\"margin: 20px 0; text-align: center;\">\n        <div style=\"display: inline-block; width: 50px; height: 50px; border: 5px solid #f3f3f3; \n                    border-top: 5px solid #3498db; border-radius: 50%; animation: spin 1s linear infinite;\"></div>\n        <p>This may take up to 2 minutes to complete...</p>\n        <style>\n          @keyframes spin \x7b\n            0% \x7b transform: rotate(0deg); \x7d\n            100% \x7b transform: rotate(360deg); \x7d\n          \x7d\n        </style>\n      </div>\n      \n      <p>The system is working on your document. Please wait while we process your request.</p>\n      <hr>\n      <p>Started at: " ++
  nowStr ++ "</p>\n    </div>\n  "

/-- Heuristic `isHtmlContent(text)`: the markup heuristic of the proxy route. -/
def isHtmlContent (text : String) : Bool :=
  (text.trim).startsWith ("<!DOCTYPE") ||
  (text.trim).startsWith ("<html") ||
  (text.contains '<' && text.contains '>')

/-- Outcome of the `fetch` to the external generation webhook, as observed
by `processJob`: either the promise rejected (network failure), or a
response arrived with `ok`/`status` and a body. `json = some p` means
`JSON.parse` of the body succeeds and yields a structure whose `html` /
`projectId` fields read as `p`; `json = none` means `JSON.parse` throws. -/
inductive FetchResult where
  | fetchFailed (msg : String)
  | response (ok : Bool) (statusCode : Nat) (text : String) (json : Option JsonPayload)

/-- Error flags for the Supabase calls a single `processJob` run can make:
the status-to-`processing` update, the terminal (`completed`) update, the
re-read inside the catch block, and the `failed` update. -/
structure DbOracle where
  updProcessing : Bool
  updTerminal : Bool
  getInCatch : Bool
  updFailed : Bool

/-- Step 1 of `processJob`: `updateDocumentJob(jobId, { status: 'processing' })`,
result ignored (best-effort). -/
def markProcessing (dbErr : Bool) (store : Store) (jobId : String) : Store :=
  (updateDocumentJob dbErr store jobId { status := some .processing }).1

/-- The catch block of `processJob`: re-read the job; if found, synthesize
fallback content from its prompt and mark it failed; if the read returns
`null` (row missing or storage error), fall through with no write. -/
def processJobCatch (getErr updErr : Bool) (nowStr : String) (store : Store)
    (jobId : String) (errorMessage : String) : Store :=
  match getDocumentJob getErr store jobId with
  | none => store
  | some job =>
    let fallbackHtml := createFallbackHtml nowStr job.prompt errorMessage
    (updateDocumentJob updErr store jobId
      { status := some .failed, error := some errorMessage,
        html := some fallbackHtml,
        project_id := some ("error-" ++ jobId),
        result := some { html := some fallbackHtml,
                         projectId := some ("error-" ++ jobId) } }).1

/-- Function `processJob(jobId, data)` from the proxy route: mark the job
`processing`, interpret the webhook outcome, and write a terminal state;
every exception of the try block lands in `processJobCatch`. The `data`
payload only flows into the webhook call, which is abstracted by `resp`. -/
def processJob (o : DbOracle) (nowStr : String) (store : Store)
    (jobId : String) (resp : FetchResult) : Store :=
  let store1 := markProcessing o.updProcessing store jobId
  match resp with
  | .fetchFailed msg =>
    processJobCatch o.getInCatch o.updFailed nowStr store1 jobId msg
  | .response ok statusCode text json =>
    if !ok then
      processJobCatch o.getInCatch o.updFailed nowStr store1 jobId
        ("Server responded with status: " ++ toString statusCode)
    else
      match json with
      | some jsonData =>
        (updateDocumentJob o.updTerminal store1 jobId
          { status := some .completed, html := jsonData.html,
            project_id := jsonData.projectId, result := some jsonData }).1
      | none =>
        if isHtmlContent text then
          (updateDocumentJob o.updTerminal store1 jobId
            { status := some .completed, html := some text,
              project_id := some ("html-" ++ jobId),
              result := some { html := some text,
                               projectId := some ("html-" ++ jobId) } }).1
        else
          processJobCatch o.getInCatch o.updFailed nowStr store1 jobId
            ("Invalid response format")

/-- Body of a status (or submission) JSON response, one optional slot per
key any branch of the route can emit, plus the HTTP status code. -/
structure StatusResponse where
  httpStatus : Nat
  status : Option String
  message : Option String
  error : Option String
  html : Option String
  result : Option JsonPayload
  projectId : Option String
deriving DecidableEq, Repr

/-- Function `checkJobStatus(jobId)` from the proxy route. `nowStr` feeds the
`new Date().toLocaleString()` reads inside the read-time fallback
templates. -/
def checkJobStatus (dbErr : Bool) (nowStr : String) (store : Store)
    (jobId : String) : StatusResponse :=
  match getDocumentJob dbErr store jobId with
  | none =>
    { httpStatus := 404, status := some ("not_found"), message := none,
      error := some ("Job not found"), html := none, result := none,
      projectId := none }
  | some job =>
    if job.status = .pending || job.status = .processing then
      { httpStatus := 200, status := some (job.status.toText),
        message := some ("Your request is still being processed"),
        error := none,
        html := some (jsOrStr job.html (createLoadingHtml nowStr job.prompt)),
        result := none,
        projectId := some (jsOrStr job.project_id ("pending-" ++ jobId)) }
    else if job.status = .failed then
      { httpStatus := 200, status := some ("failed"), message := none,
        error := some (jsOrStr job.error ("Unknown error")),
        html := some (jsOrStr job.html
          (createFallbackHtml nowStr job.prompt (jsOrStr job.error ("Unknown error")))),
        result := none,
        projectId := some (jsOrStr job.project_id ("failed-" ++ jobId)) }
    else
      { httpStatus := 200, status := some ("completed"), message := none,
        error := none, html := job.html, result := job.result,
        projectId := some (jsOrStr job.project_id ("completed-" ++ jobId)) }

/-- The parsed request body of a submission (`request.json()`): the route
only ever reads its `prompt` field; the rest is forwarded opaquely to the
webhook. -/
structure ReqData where
  prompt : Option String
deriving DecidableEq, Repr

/-- Body of a submission response (success or catch branch of `POST`). -/
structure SubmitResponse where
  httpStatus : Nat
  jobId : Option String
  status : Option String
  message : Option String
  html : String
  projectId : String
  error : Option String
deriving DecidableEq, Repr

/-- A `POST` invocation answers either a status check (when a truthy
`jobId` query parameter dispatches to `checkJobStatus`) or a submission. -/
inductive RouteResponse where
  | statusR (r : StatusResponse)
  | submitR (r : SubmitResponse)
deriving DecidableEq, Repr

/-- Handler `POST(request)` from the proxy route. Returns the store as it stands
when the response is issued, the response, and — because
`processJob(job.job_id, data)` is called without `await` — the argument of
the background task it spawned, if any. `newId`/`now`/`nowStr` are the
fresh id and clock reads, `reqTimeMs` the `Date.now()` of the catch branch.
If `createDocumentJob` returns `null`, the route throws
`'Failed to create job record'`, which its own catch converts into a
200 fallback body. -/
def POST (dbErr : Bool) (newId : String) (now : Nat) (nowStr : String)
    (reqTimeMs : Nat) (store : Store) (queryJobId : Option String)
    (data : ReqData) : Store × RouteResponse × Option (String × ReqData) :=
  if jsTruthy queryJobId then
    (store, .statusR (checkJobStatus dbErr nowStr store (queryJobId.getD (""))), none)
  else
    let prompt := jsOrStr data.prompt ("No prompt provided")
    match createDocumentJob dbErr store newId now prompt with
    | (store1, some job) =>
      (store1,
       .submitR { httpStatus := 200, jobId := some (job.job_id),
                  status := some ("pending"),
                  message := some ("Your request is being processed"),
                  html := createLoadingHtml nowStr prompt,
                  projectId := "job-" ++ job.job_id, error := none },
       some (job.job_id, data))
    | (store1, none) =>
      (store1,
       .submitR { httpStatus := 200, jobId := none, status := none,
                  message := none,
                  html := createFallbackHtml nowStr ("Error processing your request") (""),
                  projectId := "error-" ++ toString reqTimeMs,
                  error := some ("Failed to create job record") },
       none)

/-- The client component state `pollJobStatus` writes into
(`setGeneratedHtml`, `setProjectId`, `setLoading`, `setIsSubmitted`). -/
structure PollFinal where
  generatedHtml : String
  projectId : String
  loading : Bool
  isSubmitted : Bool
deriving DecidableEq, Repr

/-- The inline error document the client builds when a poll reports
`status: 'failed'` without `html` (`src/app/page.tsx`). -/
def clientErrorHtml (errText prompt nowIso : String) : String :=
  "\n            <div>\n              <h1>Error Generating Document</h1>\n              <p>We encountered an error: " ++ errText ++
  "</p>\n              <p>Your prompt was: \"" ++ prompt ++
  "\"</p>\n              <hr>\n              <p>Time: " ++ nowIso ++
  "</p>\n            </div>\n          "

/-- The document the catch handler of `pollJobStatus` renders (both on loop
exhaustion and on a thrown status-check error). -/
def clientTimeoutHtml (prompt errMsg nowIso : String) : String :=
  "\n        <div>\n          <h1>Processing Timeout</h1>\n          <p>Your document request took too long to process.</p>\n          <p>Your prompt was: \"" ++ prompt ++
  "\"</p>\n          <p>Error: " ++ errMsg ++
  "</p>\n          <hr>\n          <p>Time: " ++ nowIso ++
  "</p>\n        </div>\n      "

/-- Constant `const maxAttempts = 60` (2 minutes max with 2-second intervals). -/
def maxAttempts : Nat := 60

/-- The `setTimeout(resolve, 2000)` inter-poll delay, in milliseconds. -/
def pollIntervalMs : Nat := 2000

/-- One run of the inner `checkStatus` closure of `pollJobStatus`, applied
to the parsed status payload `r` of this attempt: it throws when the HTTP
response is not ok, finishes on a terminal status, and otherwise continues,
possibly refreshing the rendered html. `capturedHtml` is the
`generatedHtml` value the closure captured at render time; `uiHtml` the
latest value written with `setGeneratedHtml`. -/
inductive CheckOutcome where
  | threw (msg : String)
  | done (final : PollFinal)
  | notDone (uiHtml : String)
deriving DecidableEq, Repr

def checkStatus (jobId prompt capturedHtml nowIso : String)
    (uiHtml : String) (r : StatusResponse) : CheckOutcome :=
  if ¬ (200 ≤ r.httpStatus ∧ r.httpStatus ≤ 299) then
    .threw ("Error checking job status: " ++ toString r.httpStatus)
  else if r.status = some ("completed") then
    .done { generatedHtml :=
              jsOrStr r.html (jsOrStr ((r.result).bind JsonPayload.html) ("")),
            projectId :=
              jsOrStr r.projectId
                (jsOrStr ((r.result).bind JsonPayload.projectId) ("job-" ++ jobId)),
            loading := false, isSubmitted := true }
  else if r.status = some ("failed") then
    .done { generatedHtml :=
              jsOrStr r.html
                (clientErrorHtml (jsOrStr r.error ("Unknown error")) prompt nowIso),
            projectId := jsOrStr r.projectId ("error-" ++ jobId),
            loading := false, isSubmitted := false }
  else if jsTruthy r.html && r.html ≠ some capturedHtml then
    .notDone (r.html.getD uiHtml)
  else
    .notDone uiHtml

/-- The `while (attempts < maxAttempts)` loop of `pollJobStatus`, with the
remaining iteration budget as fuel. `responses` gives the parsed payload of
the `i`-th status request; `attempts` counts requests already issued. The
second component of the result is the total number of status requests
issued. Fuel exhaustion models the `throw new Error('Job processing timed
out after 2 minutes')` that the catch handler converts into the timeout
document; a thrown status-check error lands in the same handler. -/
def pollAux (responses : Nat → StatusResponse)
    (jobId prompt capturedHtml nowIso : String) (nowMs : Nat)
    (uiHtml : String) (attempts fuel : Nat) : PollFinal × Nat :=
  match fuel with
  | 0 =>
    ({ generatedHtml :=
         clientTimeoutHtml prompt ("Job processing timed out after 2 minutes") nowIso,
       projectId := "timeout-" ++ toString nowMs,
       loading := false, isSubmitted := false }, attempts)
  | fuel' + 1 =>
    match checkStatus jobId prompt capturedHtml nowIso uiHtml (responses attempts) with
    | .threw msg =>
      ({ generatedHtml := clientTimeoutHtml prompt msg nowIso,
         projectId := "timeout-" ++ toString nowMs,
         loading := false, isSubmitted := false }, attempts + 1)
    | .done final => (final, attempts + 1)
    | .notDone ui =>
      pollAux responses jobId prompt capturedHtml nowIso nowMs ui (attempts + 1) fuel'

/-- Function `pollJobStatus(jobId)` from `src/app/page.tsx`: at most `maxAttempts`
status requests, ending early on a terminal payload or a thrown check
error, and falling into the timeout handler otherwise. `nowIso` and `nowMs`
stand for the clock reads of the handlers. -/
def pollJobStatus (responses : Nat → StatusResponse)
    (jobId prompt capturedHtml nowIso : String) (nowMs : Nat) :
    PollFinal × Nat :=
  pollAux responses jobId prompt capturedHtml nowIso nowMs capturedHtml 0 maxAttempts

/-- Decidable helper: `pat` occurs at the head of `l`. -/
def leadsWith : List Char → List Char → Bool
  | _, [] => true
  | [], _ :: _ => false
  | c :: cs, d :: ds => c == d && leadsWith cs ds

/-- Decidable helper: `pat` occurs somewhere in `l`. -/
def hasSubList : List Char → List Char → Bool
  | [], pat => pat.isEmpty
  | c :: cs, pat => leadsWith (c :: cs) pat || hasSubList cs pat

/-- Decidable substring occurrence on strings (structural, so it evaluates
inside the kernel). -/
def containsSub (s pat : String) : Bool := hasSubList s.data pat.data

/-- A concrete job row used by counterexamples and witnesses: the row
`createDocumentJob` would insert for prompt `"Write a memo"` at instant 0
with id `"j1"`, at a chosen point of its lifecycle. -/
def sampleJob (st : JobStatus) : DocumentJob :=
  { job_id := "j1", status := st, prompt := "Write a memo", html := none,
    project_id := none, error := none, result := none,
    created_at := 0, updated_at := 0 }

/-- The row the failure path of `processJob` writes for a re-read job `j`:
status `failed`, the error message, and fallback html/result embedding the
job's prompt and the error text. -/
def failedRecord (t : String) (j : DocumentJob) (jobId msg : String) : DocumentJob :=
  { j with
    status := .failed, error := some msg,
    html := some (createFallbackHtml t j.prompt msg),
    project_id := some ("error-" ++ jobId),
    result := some { html := some (createFallbackHtml t j.prompt msg),
                     projectId := some ("error-" ++ jobId) } }

/-- A status payload on which the poll loop keeps going: HTTP success and a
non-terminal `status` value. -/
def continuesPoll (r : StatusResponse) : Prop :=
  (200 ≤ r.httpStatus ∧ r.httpStatus ≤ 299) ∧
  r.status ≠ some ("completed") ∧ r.status ≠ some ("failed")

instance (r : StatusResponse) : Decidable (continuesPoll r) := by
  unfold continuesPoll; infer_instance

/-- A concrete terminal (`completed`) status payload, used to exercise the
poll-loop theorem. -/
def completedSample : StatusResponse :=
  { httpStatus := 200, status := some "completed", message := none,
    error := none, html := some "<h1>Memo</h1>", result := none,
    projectId := some "p1" }

/-! ## General lemmas about the store embedding -/

theorem applyUpdate_job_id (j : DocumentJob) (u : JobUpdate) :
    (applyUpdate j u).job_id = j.job_id := rfl

theorem find?_update (store : Store) (jobId : String) (u : JobUpdate) :
    (store.map (fun j => if j.job_id == jobId then applyUpdate j u else j)).find?
        (fun j => j.job_id == jobId) =
      (store.find? (fun j => j.job_id == jobId)).map (fun j => applyUpdate j u) := by
  induction store with
  | nil => rfl
  | cons hd tl ih =>
    cases h : (hd.job_id == jobId) with
    | true =>
      have h2 : ((applyUpdate hd u).job_id == jobId) = true := by
        simpa [applyUpdate_job_id] using h
      simp [List.find?, h, h2]
    | false =>
      simp only [List.map_cons, h, Bool.false_eq_true, if_false, List.find?, ih]

/-- Reading back the updated id after a successful `updateDocumentJob`
observes the merged record. -/
theorem getDocumentJob_update (store : Store) (jobId : String) (u : JobUpdate) :
    getDocumentJob false (updateDocumentJob false store jobId u).1 jobId =
      (getDocumentJob false store jobId).map (fun j => applyUpdate j u) :=
  find?_update store jobId u

theorem applyUpdate_status_only (j : DocumentJob) (st : JobStatus) :
    applyUpdate j { status := some st } = { j with status := st } := rfl

/-- C8 counterexample: a mutation performed after creation (here: the
processor setting `status`) leaves `updated_at` at its creation-time value.
`updateDocumentJob` sends only the supplied fields and the documented
schema has no refresh trigger, so `updated_at` is never refreshed,
contradicting the claim. -/
theorem updated_at_not_refreshed_cx :
    ((updateDocumentJob false [sampleJob .pending] ("j1")
        { status := some JobStatus.processing }).1).map DocumentJob.status =
      [JobStatus.processing] ∧
    ((updateDocumentJob false [sampleJob .pending] ("j1")
        { status := some JobStatus.processing }).1).map DocumentJob.updated_at =
      [(sampleJob .pending).updated_at] :=
  ⟨rfl, rfl⟩

/-- C8 (amended): `update(job_id, partial fields)` merges exactly the
supplied fields into the matching record; `job_id`, `created_at` — and,
contrary to the original claim, also `updated_at` — are never modified; a
failed underlying write returns `false` with the table unchanged instead of
throwing. -/
theorem updateDocumentJob_spec (store : Store) (jobId : String) (u : JobUpdate)
    (j : DocumentJob) (v : JobStatus) :
    updateDocumentJob true store jobId u = (store, false) ∧
    (updateDocumentJob false store jobId u).2 = true ∧
    ((updateDocumentJob false store jobId u).1).length = store.length ∧
    (applyUpdate j u).job_id = j.job_id ∧
    (applyUpdate j u).created_at = j.created_at ∧
    (applyUpdate j u).updated_at = j.updated_at ∧
    (u.status = none → (applyUpdate j u).status = j.status) ∧
    (u.status = some v → (applyUpdate j u).status = v) ∧
    (u.html = none → (applyUpdate j u).html = j.html) ∧
    (∀ s, u.html = some s → (applyUpdate j u).html = some s) ∧
    (u.error = none → (applyUpdate j u).error = j.error) ∧
    (∀ s, u.error = some s → (applyUpdate j u).error = some s) ∧
    (u.project_id = none → (applyUpdate j u).project_id = j.project_id) ∧
    (∀ s, u.project_id = some s → (applyUpdate j u).project_id = some s) ∧
    (u.prompt = none → (applyUpdate j u).prompt = j.prompt) ∧
    (u.result = none → (applyUpdate j u).result = j.result) := by
  refine ⟨rfl, rfl, by simp [updateDocumentJob], rfl, rfl, rfl,
    fun h => by simp [applyUpdate, h],
    fun h => by simp [applyUpdate, h],
    fun h => by simp [applyUpdate, setCol, h],
    fun s h => by simp [applyUpdate, setCol, h],
    fun h => by simp [applyUpdate, setCol, h],
    fun s h => by simp [applyUpdate, setCol, h],
    fun h => by simp [applyUpdate, setCol, h],
    fun s h => by simp [applyUpdate, setCol, h],
    fun h => by simp [applyUpdate, h],
    fun h => by simp [applyUpdate, setCol, h]⟩

/-- C8 witness: the frame theorem applied to the processor's
status-to-`processing` update of the freshly created sample job. -/
theorem updateDocumentJob_spec_witness :
    (applyUpdate (sampleJob .pending) { status := some JobStatus.processing }).status =
      JobStatus.processing ∧
    (applyUpdate (sampleJob .pending) { status := some JobStatus.processing }).html =
      (sampleJob .pending).html :=
  ⟨(updateDocumentJob_spec [] ("j1") { status := some JobStatus.processing }
      (sampleJob .pending) JobStatus.processing).2.2.2.2.2.2.2.1 rfl,
   (updateDocumentJob_spec [] ("j1") { status := some JobStatus.processing }
      (sampleJob .pending) JobStatus.processing).2.2.2.2.2.2.2.2.1 rfl⟩

/-- C9 counterexample: `getDocumentJob` returns absence while a record with
the requested id exists, because the underlying read reported a storage
error — so absence is not returned "exactly when no record exists". -/
theorem get_conflates_storage_error_cx :
    getDocumentJob true [sampleJob .processing] ("j1") = none ∧
    (([sampleJob .processing] : Store).find? (fun j => j.job_id == ("j1"))).isSome = true :=
  ⟨rfl, rfl⟩

/-- C9 (amended): `get` returns absence (never an exception) whenever no
record with the id exists or the underlying read fails; the status endpoint
answers HTTP 404 with an explicit `not_found` body exactly on absence. -/
theorem get_absence_spec (t : String) (store : Store) (jobId : String) (dbErr : Bool) :
    (getDocumentJob false store jobId = none ↔
       store.find? (fun j => j.job_id == jobId) = none) ∧
    (getDocumentJob dbErr store jobId = none →
       checkJobStatus dbErr t store jobId =
         { httpStatus := 404, status := some ("not_found"), message := none,
           error := some ("Job not found"), html := none, result := none,
           projectId := none }) ∧
    ((checkJobStatus dbErr t store jobId).httpStatus = 404 ↔
       getDocumentJob dbErr store jobId = none) := by
  refine ⟨Iff.rfl, fun h => by simp [checkJobStatus, h], ?_⟩
  cases hg : getDocumentJob dbErr store jobId with
  | none => simp [checkJobStatus, hg]
  | some j =>
    simp only [checkJobStatus, hg]
    split_ifs <;> simp

/-- C9 witness: a status lookup whose store read fails is answered with the
explicit 404 `not_found` body. -/
theorem get_absence_spec_witness :
    checkJobStatus true ("t") [sampleJob .processing] ("j1") =
      { httpStatus := 404, status := some ("not_found"), message := none,
        error := some ("Job not found"), html := none, result := none,
        projectId := none } :=
  (get_absence_spec ("t") [sampleJob .processing] ("j1") true).2.1 rfl

/-- C10: when the failure path's re-read of the job returns absence
(row missing, or a storage error reported as absence), the catch block of
`processJob` performs no write at all — the store is returned unchanged, so
a job that still exists stays in whatever state it was, with no `failed`
status, `error` field or fallback content ever recorded. -/
theorem absent_reread_no_write (getErr updErr : Bool) (t : String) (store : Store)
    (jobId msg : String) (h : getDocumentJob getErr store jobId = none) :
    processJobCatch getErr updErr t store jobId msg = store := by
  simp [processJobCatch, h]

/-- C10 witness: the job is still present and `processing`, but the re-read
reports a storage error, so the failure path leaves the store untouched and
the job remains `processing`. -/
theorem absent_reread_no_write_witness :
    processJobCatch true false ("t") [sampleJob .processing] ("j1") ("network down") =
      [sampleJob .processing] ∧
    (sampleJob .processing).status = JobStatus.processing :=
  ⟨absent_reread_no_write true false ("t") [sampleJob .processing] ("j1")
      ("network down") rfl,
   rfl⟩

/-- C1 counterexample: a job created by `createDocumentJob` and then put
into `processing` by step 1 of the processor has left `pending` with `html`
still null — `create` stores no placeholder (`insert` sends only the
prompt) and the `processing` write does not touch `html`. -/
theorem create_then_processing_html_null_cx :
    getDocumentJob false
        (markProcessing false
          ((createDocumentJob false [] ("j1") 0 ("Write a memo")).1) ("j1")) ("j1") =
      some { sampleJob .pending with status := .processing } ∧
    (getDocumentJob false
        (markProcessing false
          ((createDocumentJob false [] ("j1") 0 ("Write a memo")).1) ("j1")) ("j1")).map
        DocumentJob.html =
      some none := by
  exact ⟨by decide, by decide⟩

/-- C1 (amended): `create` stores `html` as null (the placeholder only
appears in the submission response) and the `processing` write changes only
`status`, so a job in `processing` can have null `html`; the failure path
(when the re-read finds the job) and the raw-markup completed path do
populate `html`; for a `processing` job whose stored `html` is null the
status endpoint synthesizes the placeholder document at read time. -/
theorem html_population_spec (store : Store) (newId : String) (now : Nat)
    (prompt jobId t msg text : String) (code : Nat) (getErr : Bool) (j : DocumentJob) :
    ((createDocumentJob false store newId now prompt).2).map DocumentJob.html = some none ∧
    ((createDocumentJob false store newId now prompt).2).map DocumentJob.status =
      some JobStatus.pending ∧
    (getDocumentJob false (markProcessing false store jobId) jobId =
       (getDocumentJob false store jobId).map
         (fun x => { x with status := JobStatus.processing })) ∧
    (getDocumentJob getErr store jobId = some j →
       (getDocumentJob false (processJobCatch getErr false t store jobId msg) jobId).map
           DocumentJob.html =
         some (some (createFallbackHtml t j.prompt msg))) ∧
    (getDocumentJob false store jobId = some j → isHtmlContent text = true →
       (getDocumentJob false
           (processJob ⟨false, false, false, false⟩ t store jobId
             (.response true code text none)) jobId).map DocumentJob.html =
         some (some text)) ∧
    (getDocumentJob false store jobId = some j → j.status = JobStatus.processing →
       j.html = none →
       (checkJobStatus false t store jobId).html = some (createLoadingHtml t j.prompt)) := by
  refine ⟨rfl, rfl, ?_, ?_, ?_, ?_⟩
  · simp [markProcessing, getDocumentJob_update, applyUpdate_status_only]
  · intro hj
    cases getErr with
    | true => exact absurd hj (by simp [getDocumentJob])
    | false =>
      simp only [processJobCatch, hj]
      rw [getDocumentJob_update, hj]
      simp [applyUpdate, setCol]
  · intro hj hh
    simp only [processJob, markProcessing, Bool.not_true, Bool.false_eq_true, if_false, hh,
      if_true]
    rw [getDocumentJob_update, getDocumentJob_update, hj]
    simp [applyUpdate, setCol]
  · intro hj hs hh
    simp [checkJobStatus, hj, hs, hh, jsOrStr]

/-- C1 witness: the amended theorem applied to a concrete store holding the
sample job in `processing` with null `html`: the status endpoint serves the
synthesized loading document. -/
theorem html_population_spec_witness :
    (checkJobStatus false ("t") [sampleJob .processing] ("j1")).html =
      some (createLoadingHtml ("t") ("Write a memo")) :=
  (html_population_spec [sampleJob .processing] ("x") 0 ("p") ("j1") ("t") ("m") ("b")
      0 false (sampleJob .processing)).2.2.2.2.2 rfl rfl rfl

/-- C2 counterexample: a webhook body that parses as structured JSON but
carries no content field still drives the job to `completed`, and the
stored `html` stays null — contradicting both "completed only if the body
contains a content field" and "completed implies html non-empty". -/
theorem json_completed_without_content_cx :
    getDocumentJob false
        (processJob ⟨false, false, false, false⟩ ("t") [sampleJob .pending] ("j1")
          (.response true 200 ("42") (some { html := none, projectId := none }))) ("j1") =
      some { sampleJob .pending with
             status := .completed, result := some { html := none, projectId := none } } ∧
    (getDocumentJob false
        (processJob ⟨false, false, false, false⟩ ("t") [sampleJob .pending] ("j1")
          (.response true 200 ("42") (some { html := none, projectId := none }))) ("j1")).map
        DocumentJob.html =
      some none := by
  exact ⟨by decide, by decide⟩

/-- C2 (amended): the JSON branch marks the job `completed` whenever the
body parses as structured data, with or without a content field; the
content field overwrites `html` when present and `html` is left unchanged
(possibly null) when absent; `error` is never written on this path (so it
stays absent whenever it was absent before, which is always in reachable
stores); the full payload is stored as `result`. -/
theorem json_branch_completed_spec (o : DbOracle) (t : String) (store : Store)
    (jobId text : String) (code : Nat) (p : JsonPayload) (j : DocumentJob)
    (h1 : o.updProcessing = false) (h2 : o.updTerminal = false)
    (hj : getDocumentJob false store jobId = some j) :
    getDocumentJob false (processJob o t store jobId (.response true code text (some p)))
        jobId =
      some { j with
             status := JobStatus.completed,
             html := setCol p.html j.html,
             project_id := setCol p.projectId j.project_id,
             result := some p } := by
  obtain ⟨a, b, c, d⟩ := o
  subst h1
  subst h2
  simp only [processJob, markProcessing, Bool.not_true, Bool.false_eq_true, if_false]
  rw [getDocumentJob_update, getDocumentJob_update, hj]
  rfl

/-- C2 witness: the amended theorem at a concrete pending job and a JSON
payload carrying a content field and a project label. -/
theorem json_branch_completed_spec_witness :
    getDocumentJob false
        (processJob ⟨false, false, false, false⟩ ("t") [sampleJob .pending] ("j1")
          (.response true 200 ("x")
            (some { html := some ("<h1>Memo</h1>"), projectId := some ("p1") }))) ("j1") =
      some { sampleJob .pending with
             status := JobStatus.completed,
             html := some ("<h1>Memo</h1>"),
             project_id := some ("p1"),
             result := some { html := some ("<h1>Memo</h1>"), projectId := some ("p1") } } :=
  json_branch_completed_spec ⟨false, false, false, false⟩ ("t") [sampleJob .pending]
    ("j1") ("x") 200 { html := some ("<h1>Memo</h1>"), projectId := some ("p1") }
    (sampleJob .pending) rfl rfl rfl

/-- C3 counterexample: the external call fails, the exception is caught,
but the re-read of the job reports a storage error (absence), so the
processor never marks the job `failed` — it is left in `processing` with no
`error` recorded, contrary to the claim that every failure updates the job
to `failed`. -/
theorem failure_reread_absent_cx :
    getDocumentJob false
        (processJob ⟨false, false, true, false⟩ ("t") [sampleJob .pending] ("j1")
          (.fetchFailed ("network down"))) ("j1") =
      some { sampleJob .pending with status := .processing } ∧
    (getDocumentJob false
        (processJob ⟨false, false, true, false⟩ ("t") [sampleJob .pending] ("j1")
          (.fetchFailed ("network down"))) ("j1")).map DocumentJob.error =
      some none := by
  exact ⟨by decide, by decide⟩

/-- C3 (amended): every failure of the external call or of response
interpretation is caught inside `processJob` (which, by construction of the
embedding, always returns a store — nothing propagates); the processor
re-reads the job and, when the re-read finds it, writes `failed` together
with the error text and fallback html embedding the original prompt; when
the re-read returns absence, no write occurs. -/
theorem process_failure_spec (o : DbOracle) (t : String) (store : Store)
    (jobId msg text : String) (code : Nat) (json : Option JsonPayload) (j : DocumentJob)
    (h1 : o.updProcessing = false) (h2 : o.getInCatch = false) (h3 : o.updFailed = false)
    (hj : getDocumentJob false store jobId = some j) :
    getDocumentJob false (processJob o t store jobId (.fetchFailed msg)) jobId =
      some (failedRecord t j jobId msg) ∧
    getDocumentJob false (processJob o t store jobId (.response false code text json))
        jobId =
      some (failedRecord t j jobId ("Server responded with status: " ++ toString code)) ∧
    (isHtmlContent text = false →
       getDocumentJob false (processJob o t store jobId (.response true code text none))
           jobId =
         some (failedRecord t j jobId ("Invalid response format"))) := by
  obtain ⟨a, b, c, d⟩ := o
  subst h1
  subst h2
  subst h3
  have hre : getDocumentJob false
      (updateDocumentJob false store jobId { status := some .processing }).1 jobId =
      some { j with status := JobStatus.processing } := by
    rw [getDocumentJob_update, hj]; rfl
  refine ⟨?_, ?_, ?_⟩
  · simp only [processJob, markProcessing, processJobCatch, hre]
    rw [getDocumentJob_update, hre]
    rfl
  · simp only [processJob, markProcessing, processJobCatch, hre, Bool.not_false, if_true]
    rw [getDocumentJob_update, hre]
    rfl
  · intro hh
    simp only [processJob, markProcessing, processJobCatch, hre, Bool.not_true,
      Bool.false_eq_true, if_false, hh]
    rw [getDocumentJob_update, hre]
    rfl

/-- C3 witness: the amended theorem at a concrete processing job and a
network failure, with all store writes succeeding. -/
theorem process_failure_spec_witness :
    getDocumentJob false
        (processJob ⟨false, false, false, false⟩ ("t") [sampleJob .pending] ("j1")
          (.fetchFailed ("network down"))) ("j1") =
      some (failedRecord ("t") (sampleJob .pending) ("j1") ("network down")) :=
  (process_failure_spec ⟨false, false, false, false⟩ ("t") [sampleJob .pending] ("j1")
      ("network down") ("b") 0 none (sampleJob .pending) rfl rfl rfl rfl).1

/-- C4 counterexample: two status checks of the same stored record with no
intervening write return different payloads, because the record (a fresh
`pending` job) has null `html` and the endpoint synthesizes the placeholder
document embedding the current wall-clock reading at response time. -/
theorem status_not_idempotent_cx :
    checkJobStatus false ("a") [sampleJob .pending] ("j1") ≠
      checkJobStatus false ("bb") [sampleJob .pending] ("j1") := by
  decide

/-- C4 (amended): the status payload is a deterministic function of the
stored record alone whenever the record's `html` is populated (non-null and
non-empty) or the job is `completed` (or absent); only when a
non-`completed` record has unpopulated `html` does the endpoint synthesize
time-dependent placeholder content, so only then can two back-to-back calls
differ. -/
theorem checkJobStatus_deterministic (dbErr : Bool) (t1 t2 : String) (store : Store)
    (jobId : String)
    (h : ∀ j, getDocumentJob dbErr store jobId = some j →
       jsTruthy j.html = true ∨ j.status = JobStatus.completed) :
    checkJobStatus dbErr t1 store jobId = checkJobStatus dbErr t2 store jobId := by
  cases hg : getDocumentJob dbErr store jobId with
  | none => simp [checkJobStatus, hg]
  | some j =>
    rcases h j hg with hh | hs
    · cases hhtml : j.html with
      | none => rw [hhtml] at hh; simp [jsTruthy] at hh
      | some s =>
        rw [hhtml] at hh
        have hne : s ≠ "" := by simpa [jsTruthy] using hh
        simp [checkJobStatus, hg, hhtml, jsOrStr, hne]
    · simp [checkJobStatus, hg, hs]

/-- C4 witness: with a completed job whose `html` is populated, two checks
at different instants coincide. -/
theorem checkJobStatus_deterministic_witness :
    checkJobStatus false ("a")
        [{ sampleJob .completed with html := some ("<h1>Memo</h1>") }] ("j1") =
      checkJobStatus false ("bb")
        [{ sampleJob .completed with html := some ("<h1>Memo</h1>") }] ("j1") :=
  checkJobStatus_deterministic false ("a") ("bb")
    [{ sampleJob .completed with html := some ("<h1>Memo</h1>") }] ("j1")
    (fun j hj => by
      rw [show getDocumentJob false
            [{ sampleJob JobStatus.completed with html := some ("<h1>Memo</h1>") }]
            ("j1") =
          some { sampleJob JobStatus.completed with html := some ("<h1>Memo</h1>") }
        from rfl] at hj
      cases hj
      exact Or.inl (by decide))

/-- C6: the submission path of `POST` creates the job through the store
(appending a fresh `pending` row with the requested prompt), spawns the
processor on the new job id without awaiting it, and immediately answers
with the job id, status `pending`, placeholder html and a project id
derived from the job id; an absent `prompt` field is not rejected — the
placeholder prompt string is substituted. -/
theorem POST_submission_spec (newId : String) (now : Nat) (nowStr : String)
    (reqTimeMs : Nat) (store : Store) (data : ReqData) :
    POST false newId now nowStr reqTimeMs store none data =
      (store ++
         [{ job_id := newId, status := .pending,
            prompt := jsOrStr data.prompt ("No prompt provided"),
            html := none, project_id := none, error := none, result := none,
            created_at := now, updated_at := now }],
       .submitR { httpStatus := 200, jobId := some newId, status := some ("pending"),
                  message := some ("Your request is being processed"),
                  html := createLoadingHtml nowStr (jsOrStr data.prompt ("No prompt provided")),
                  projectId := "job-" ++ newId, error := none },
       some (newId, data)) ∧
    (data.prompt = none →
       jsOrStr data.prompt ("No prompt provided") = "No prompt provided") :=
  ⟨rfl, fun h => by rw [h]; rfl⟩

/-- C6 witness: a promptless submission still creates a job, spawns its
processor and substitutes the placeholder prompt. -/
theorem POST_submission_spec_witness :
    (POST false ("id1") 3 ("t") 9 [] none { prompt := none }).2.2 =
      some (("id1"), ({ prompt := none } : ReqData)) ∧
    jsOrStr (ReqData.prompt { prompt := none }) ("No prompt provided") =
      "No prompt provided" :=
  ⟨by rw [(POST_submission_spec ("id1") 3 ("t") 9 [] { prompt := none }).1],
   (POST_submission_spec ("id1") 3 ("t") 9 [] { prompt := none }).2 rfl⟩

/-- C7 counterexample: when `create` fails, the catch branch of `POST`
calls `createFallbackHtml("Error processing your request")`, so the
response html embeds neither the original prompt (`"Write a memo"`) nor the
error text (`"Failed to create job record"` travels only in the body's
`error` field) — contradicting "fallback HTML embedding the error text and
the original prompt". -/
theorem submit_fallback_lacks_prompt_cx :
    (POST true ("j1") 0 ("t") 99 [] none { prompt := some ("Write a memo") }).2.1 =
      .submitR { httpStatus := 200, jobId := none, status := none, message := none,
                 html := createFallbackHtml ("t") ("Error processing your request") (""),
                 projectId := "error-" ++ toString 99,
                 error := some ("Failed to create job record") } ∧
    containsSub (createFallbackHtml ("t") ("Error processing your request") (""))
        ("Write a memo") = false ∧
    containsSub (createFallbackHtml ("t") ("Error processing your request") (""))
        ("Failed to create job record") = false := by
  exact ⟨rfl, by decide, by decide⟩

/-- C7 (amended): if the store's `create` fails at submission time, `POST`
answers a 200 response whose body carries the error text in an `error`
field, fallback html synthesized from the fixed string "Error processing
your request" (the original prompt and the error text are not embedded in
the html), and a locally generated non-persisted identifier; no job is
persisted and no processor is spawned. -/
theorem submit_create_failure_spec (newId : String) (now : Nat) (nowStr : String)
    (reqTimeMs : Nat) (store : Store) (data : ReqData) :
    POST true newId now nowStr reqTimeMs store none data =
      (store,
       .submitR { httpStatus := 200, jobId := none, status := none, message := none,
                  html := createFallbackHtml nowStr ("Error processing your request") (""),
                  projectId := "error-" ++ toString reqTimeMs,
                  error := some ("Failed to create job record") },
       none) := rfl

/-- On an in-flight payload (HTTP success, non-terminal status) the inner
`checkStatus` always continues polling. -/
theorem checkStatus_continues (jobId prompt cap nowIso ui : String)
    (r : StatusResponse) (h : continuesPoll r) :
    ∃ u, checkStatus jobId prompt cap nowIso ui r = .notDone u := by
  obtain ⟨hok, hc, hf⟩ := h
  unfold checkStatus
  rw [if_neg (not_not_intro hok), if_neg hc, if_neg hf]
  split
  · exact ⟨_, rfl⟩
  · exact ⟨_, rfl⟩

/-- The poll loop issues at most `attempts + fuel` status requests. -/
theorem pollAux_requests_le (responses : Nat → StatusResponse)
    (jobId prompt cap nowIso : String) (nowMs : Nat) :
    ∀ fuel attempts ui,
      (pollAux responses jobId prompt cap nowIso nowMs ui attempts fuel).2 ≤
        attempts + fuel := by
  intro fuel
  induction fuel with
  | zero => intro attempts ui; simp [pollAux]
  | succ f ih =>
    intro attempts ui
    cases hcs : checkStatus jobId prompt cap nowIso ui (responses attempts) with
    | threw msg => simp [pollAux, hcs]
    | done final => simp [pollAux, hcs]
    | notDone u =>
      have h2 := ih (attempts + 1) u
      simp only [pollAux, hcs]
      omega

/-- If every response up to the fuel bound keeps the loop going, the loop
consumes all its fuel and lands in the timeout handler. -/
theorem pollAux_timeout (responses : Nat → StatusResponse)
    (jobId prompt cap nowIso : String) (nowMs : Nat) :
    ∀ fuel attempts ui,
      (∀ i, attempts ≤ i → i < attempts + fuel → continuesPoll (responses i)) →
      pollAux responses jobId prompt cap nowIso nowMs ui attempts fuel =
        ({ generatedHtml :=
             clientTimeoutHtml prompt ("Job processing timed out after 2 minutes") nowIso,
           projectId := "timeout-" ++ toString nowMs,
           loading := false, isSubmitted := false }, attempts + fuel) := by
  intro fuel
  induction fuel with
  | zero => intro attempts ui _; rfl
  | succ f ih =>
    intro attempts ui h
    obtain ⟨u, hu⟩ := checkStatus_continues jobId prompt cap nowIso ui (responses attempts)
      (h attempts (Nat.le_refl _) (by omega))
    simp only [pollAux, hu]
    rw [ih (attempts + 1) u (fun i h1 h2 => h i (by omega) (by omega))]
    congr 1
    omega

/-- If the `k`-th response is the first one that terminates the loop, the
loop stops right there with the final state it carries. -/
theorem pollAux_terminal (responses : Nat → StatusResponse)
    (jobId prompt cap nowIso : String) (nowMs : Nat) (f : PollFinal) :
    ∀ fuel attempts ui k, attempts ≤ k → k < attempts + fuel →
      (∀ i, attempts ≤ i → i < k → continuesPoll (responses i)) →
      (∀ u, checkStatus jobId prompt cap nowIso u (responses k) = .done f) →
      pollAux responses jobId prompt cap nowIso nowMs ui attempts fuel = (f, k + 1) := by
  intro fuel
  induction fuel with
  | zero => intro attempts ui k h1 h2 _ _; omega
  | succ fl ih =>
    intro attempts ui k h1 h2 hcont hdone
    rcases Nat.eq_or_lt_of_le h1 with he | hlt
    · subst he
      simp only [pollAux, hdone ui]
    · obtain ⟨u, hu⟩ := checkStatus_continues jobId prompt cap nowIso ui
        (responses attempts) (hcont attempts (Nat.le_refl _) hlt)
      simp only [pollAux, hu]
      exact ih (attempts + 1) u k hlt (by omega)
        (fun i hi1 hi2 => hcont i (by omega) hi2) hdone

/-- C5: the client poll loop always terminates; it issues at most
`maxAttempts = 60` status requests (one per `pollIntervalMs = 2000`
milliseconds); the first response with a terminal (`completed`/`failed`)
status ends polling immediately with the final content/error it determines;
and if all 60 responses are still in flight the loop ends with the
client-synthesized timeout document. -/
theorem pollJobStatus_spec (responses : Nat → StatusResponse)
    (jobId prompt cap nowIso : String) (nowMs : Nat) :
    (maxAttempts = 60 ∧ pollIntervalMs = 2000) ∧
    (pollJobStatus responses jobId prompt cap nowIso nowMs).2 ≤ maxAttempts ∧
    (∀ k f, k < maxAttempts → (∀ i, i < k → continuesPoll (responses i)) →
       (∀ u, checkStatus jobId prompt cap nowIso u (responses k) = .done f) →
       pollJobStatus responses jobId prompt cap nowIso nowMs = (f, k + 1)) ∧
    ((∀ i, i < maxAttempts → continuesPoll (responses i)) →
       pollJobStatus responses jobId prompt cap nowIso nowMs =
         ({ generatedHtml :=
              clientTimeoutHtml prompt ("Job processing timed out after 2 minutes") nowIso,
            projectId := "timeout-" ++ toString nowMs,
            loading := false, isSubmitted := false }, maxAttempts)) := by
  refine ⟨⟨rfl, rfl⟩, ?_, ?_, ?_⟩
  · simpa using pollAux_requests_le responses jobId prompt cap nowIso nowMs maxAttempts 0 cap
  · intro k f hk hcont hdone
    exact pollAux_terminal responses jobId prompt cap nowIso nowMs f maxAttempts 0 cap k
      (Nat.zero_le k) (by omega) (fun i _ h2 => hcont i h2) hdone
  · intro hcont
    have h := pollAux_timeout responses jobId prompt cap nowIso nowMs maxAttempts 0 cap
      (fun i _ h2 => hcont i (by omega))
    simpa using h

/-- C5 witness: a first response that is already terminal ends polling
after a single request with the rendered final content. -/
theorem pollJobStatus_spec_witness :
    pollJobStatus (fun _ => completedSample) ("j7") ("Write a memo") ("") ("iso") 5 =
      ({ generatedHtml := "<h1>Memo</h1>", projectId := "p1",
         loading := false, isSubmitted := true }, 1) :=
  (pollJobStatus_spec (fun _ => completedSample) ("j7") ("Write a memo") ("") ("iso")
      5).2.2.1 0
    { generatedHtml := "<h1>Memo</h1>", projectId := "p1",
      loading := false, isSubmitted := true }
    (by decide) (fun i hi => absurd hi (Nat.not_lt_zero i)) (fun u => rfl)

end SolutionHandbook
